import Mathlib

/-!
Verification of the CafeManager storage core (`src/server/storage.ts`,
class `MemStorage`): table and reservation stores, the table-status
synchronization performed on reservation create/delete, and the
composite `getTablesWithReservations` view.

Embedding conventions:
* A JS `Map<number, V>` is an insertion-ordered association list
  `List V` where each record carries its own `id`; `Map.set` replaces
  the entry in place when the key exists and appends otherwise,
  `Map.values()` iterates in insertion order, `Map.delete` removes.
* JS falsy coalescing `a || b` on strings treats the empty string as
  falsy, on numbers treats `0` as falsy; `strOr`, `strOrNull`, `intOr`
  and `boolOr` model the exact uses in the source.
* The implicit inputs `new Date()` (the `createdAt` timestamp and the
  string "today") are passed as explicit parameters `now : Nat` and
  `today : String`.
* Every operation is state-passing: it returns its TypeScript result
  paired with the successor `MemStorage` state.
-/

set_option maxHeartbeats 1000000

namespace CafeManager

/-- A table record (`Table` of `@shared/schema`, as constructed in
`storage.ts`): statuses are the strings `available`, `reserved`,
`occupied`; `name` is nullable. -/
structure Table where
  id : Nat
  number : Int
  name : Option String
  capacity : Int
  x : Int
  y : Int
  width : Int
  height : Int
  status : String
  shape : String
  hallId : String
deriving DecidableEq, Repr

/-- The insert payload for a table (`InsertTable`): optional fields may
be absent (`none`), and the store normalizes them with JS `||`. -/
structure InsertTable where
  number : Int
  name : Option String
  capacity : Int
  x : Int
  y : Int
  width : Int
  height : Int
  status : Option String
  shape : Option String
  hallId : Option String
deriving DecidableEq, Repr

/-- `Partial<InsertTable>`: each field is either absent (`none`, left
untouched by the merge) or supplied. A supplied `name` may itself be
`null`, hence the nested `Option`. -/
structure TableUpdates where
  number : Option Int
  name : Option (Option String)
  capacity : Option Int
  x : Option Int
  y : Option Int
  width : Option Int
  height : Option Int
  status : Option String
  shape : Option String
  hallId : Option String
deriving DecidableEq, Repr

/-- A reservation record (`Reservation`), as constructed in
`createReservation`: `comment`, `startTime`, `endTime` are nullable,
`createdAt` is the creation timestamp. -/
structure Reservation where
  id : Nat
  tableId : Nat
  customerName : String
  customerPhone : String
  guests : Int
  date : String
  time : String
  duration : Int
  comment : Option String
  status : String
  hasTimeLimit : Bool
  startTime : Option String
  endTime : Option String
  createdAt : Nat
deriving DecidableEq, Repr

/-- The insert payload for a reservation (`InsertReservation`); it has
no `id` and no `createdAt`. -/
structure InsertReservation where
  tableId : Nat
  customerName : String
  customerPhone : String
  guests : Int
  date : String
  time : String
  duration : Option Int
  comment : Option String
  status : Option String
  hasTimeLimit : Option Bool
  startTime : Option String
  endTime : Option String
deriving DecidableEq, Repr

/-- `Partial<InsertReservation>`: the update payload of
`updateReservation`. -/
structure ReservationUpdates where
  tableId : Option Nat
  customerName : Option String
  customerPhone : Option String
  guests : Option Int
  date : Option String
  time : Option String
  duration : Option Int
  comment : Option (Option String)
  status : Option String
  hasTimeLimit : Option Bool
  startTime : Option (Option String)
  endTime : Option (Option String)
deriving DecidableEq, Repr

/-- One element of the `getTablesWithReservations` result
(`TableWithReservations`); the source spreads the table's fields, which
is modelled by nesting the table record. -/
structure TableWithReservations where
  table : Table
  currentReservation : Option Reservation
  todayReservations : List Reservation
deriving DecidableEq, Repr

/-- JS `v || d` for an optional string `v` and string default `d`: the
empty string is falsy. -/
def strOr (v : Option String) (d : String) : String :=
  match v with
  | some s => if s = "" then d else s
  | none => d

/-- JS `v || null` for an optional string: absent or empty becomes
`null`. -/
def strOrNull (v : Option String) : Option String :=
  match v with
  | some s => if s = "" then none else some s
  | none => none

/-- JS `v || d` for an optional number: `0` is falsy. -/
def intOr (v : Option Int) (d : Int) : Int :=
  match v with
  | some n => if n = 0 then d else n
  | none => d

/-- JS `v || false` for an optional boolean. -/
def boolOr (v : Option Bool) : Bool :=
  match v with
  | some b => b
  | none => false

/-- `Map.get(k)`: first (and, with unique keys, only) entry with key
`k`. -/
def mapGet (key : α → Nat) (m : List α) (k : Nat) : Option α :=
  m.find? (fun x => key x == k)

/-- `Map.set(k, v)`: replace in place when the key exists, append
otherwise. -/
def mapSet (key : α → Nat) : List α → Nat → α → List α
  | [], _, v => [v]
  | x :: xs, k, v => if key x = k then v :: xs else x :: mapSet key xs k v

/-- `Map.delete(k)`. -/
def mapDelete (key : α → Nat) (m : List α) (k : Nat) : List α :=
  m.filter (fun x => key x ≠ k)

/-- The state of `MemStorage`: the two id-keyed maps and the two id
counters. -/
structure MemStorage where
  tables : List Table
  reservations : List Reservation
  currentTableId : Nat
  currentReservationId : Nat
deriving DecidableEq, Repr

/-- `getTables()`: all tables in insertion order. -/
def getTables (s : MemStorage) : List Table :=
  s.tables

/-- `getTable(id)`. -/
def getTable (s : MemStorage) (id : Nat) : Option Table :=
  mapGet Table.id s.tables id

/-- `createTable(table)`: assigns the next id, normalizes optional
fields with JS `||`, stores and returns the new record. -/
def createTable (s : MemStorage) (t : InsertTable) : Table × MemStorage :=
  let id := s.currentTableId
  let newTable : Table :=
    { id := id
      number := t.number
      name := strOrNull t.name
      capacity := t.capacity
      x := t.x
      y := t.y
      width := t.width
      height := t.height
      status := strOr t.status "available"
      shape := strOr t.shape "round"
      hallId := strOr t.hallId "white" }
  (newTable,
    { s with
      tables := mapSet Table.id s.tables id newTable
      currentTableId := s.currentTableId + 1 })

/-- The spread `{ ...table, ...updates }`: supplied fields replace,
absent fields are untouched; `id` is not part of `InsertTable` and is
never replaced. -/
def applyTableUpdates (t : Table) (u : TableUpdates) : Table :=
  { id := t.id
    number := u.number.getD t.number
    name := u.name.getD t.name
    capacity := u.capacity.getD t.capacity
    x := u.x.getD t.x
    y := u.y.getD t.y
    width := u.width.getD t.width
    height := u.height.getD t.height
    status := u.status.getD t.status
    shape := u.shape.getD t.shape
    hallId := u.hallId.getD t.hallId }

/-- `updateTable(id, updates)`: not-found is a `none` result with no
mutation. -/
def updateTable (s : MemStorage) (id : Nat) (u : TableUpdates) :
    Option Table × MemStorage :=
  match mapGet Table.id s.tables id with
  | none => (none, s)
  | some t =>
    let updatedTable := applyTableUpdates t u
    (some updatedTable,
      { s with tables := mapSet Table.id s.tables id updatedTable })

/-- An update payload supplying only `status` (the literal
`{ status }`). -/
def statusOnly (status : String) : TableUpdates :=
  { number := none, name := none, capacity := none, x := none, y := none
    width := none, height := none, status := some status, shape := none
    hallId := none }

/-- `updateTableStatus(id, status)`: wrapper over `updateTable`. -/
def updateTableStatus (s : MemStorage) (id : Nat) (status : String) :
    Option Table × MemStorage :=
  updateTable s id (statusOnly status)

/-- `getReservations()`. -/
def getReservations (s : MemStorage) : List Reservation :=
  s.reservations

/-- `getReservation(id)`. -/
def getReservation (s : MemStorage) (id : Nat) : Option Reservation :=
  mapGet Reservation.id s.reservations id

/-- `getReservationsByDate(date)`: exact string-equality filter. -/
def getReservationsByDate (s : MemStorage) (date : String) : List Reservation :=
  s.reservations.filter (fun r => r.date == date)

/-- `getReservationsByTable(tableId)`: exact-equality filter. -/
def getReservationsByTable (s : MemStorage) (tableId : Nat) : List Reservation :=
  s.reservations.filter (fun r => r.tableId == tableId)

/-- `createReservation(reservation)`: assigns the next id, normalizes
optional fields with JS `||`, stores the record, then synchronizes the
table with `updateTableStatus(tableId, "reserved")`. `now` stands for
`new Date()`. -/
def createReservation (s : MemStorage) (r : InsertReservation) (now : Nat) :
    Reservation × MemStorage :=
  let id := s.currentReservationId
  let newReservation : Reservation :=
    { id := id
      tableId := r.tableId
      customerName := r.customerName
      customerPhone := r.customerPhone
      guests := r.guests
      date := r.date
      time := r.time
      duration := intOr r.duration 120
      comment := strOrNull r.comment
      status := strOr r.status "active"
      hasTimeLimit := boolOr r.hasTimeLimit
      startTime := strOrNull r.startTime
      endTime := strOrNull r.endTime
      createdAt := now }
  let s1 : MemStorage :=
    { s with
      reservations := mapSet Reservation.id s.reservations id newReservation
      currentReservationId := s.currentReservationId + 1 }
  (newReservation, (updateTableStatus s1 r.tableId "reserved").2)

/-- The spread `{ ...reservation, ...updates }`: `id` and `createdAt`
are not part of `InsertReservation` and are never replaced. -/
def applyReservationUpdates (r : Reservation) (u : ReservationUpdates) :
    Reservation :=
  { id := r.id
    tableId := u.tableId.getD r.tableId
    customerName := u.customerName.getD r.customerName
    customerPhone := u.customerPhone.getD r.customerPhone
    guests := u.guests.getD r.guests
    date := u.date.getD r.date
    time := u.time.getD r.time
    duration := u.duration.getD r.duration
    comment := u.comment.getD r.comment
    status := u.status.getD r.status
    hasTimeLimit := u.hasTimeLimit.getD r.hasTimeLimit
    startTime := u.startTime.getD r.startTime
    endTime := u.endTime.getD r.endTime
    createdAt := r.createdAt }

/-- `updateReservation(id, updates)`: field merge; no table
synchronization. -/
def updateReservation (s : MemStorage) (id : Nat) (u : ReservationUpdates) :
    Option Reservation × MemStorage :=
  match mapGet Reservation.id s.reservations id with
  | none => (none, s)
  | some r =>
    let updatedReservation := applyReservationUpdates r u
    (some updatedReservation,
      { s with reservations := mapSet Reservation.id s.reservations id updatedReservation })

/-- `deleteReservation(id)`: not-found returns `false` with no
mutation; otherwise the record is removed, and if the table has no
remaining reservation dated `today` with status `active`, the table is
set to `available`. `today` stands for
`new Date().toISOString().split('T')[0]`. -/
def deleteReservation (s : MemStorage) (id : Nat) (today : String) :
    Bool × MemStorage :=
  match mapGet Reservation.id s.reservations id with
  | none => (false, s)
  | some r =>
    let s1 : MemStorage :=
      { s with reservations := mapDelete Reservation.id s.reservations id }
    let tableReservations := getReservationsByTable s1 r.tableId
    let todayActiveReservations :=
      tableReservations.filter (fun x => x.date == today && x.status == "active")
    if todayActiveReservations.length = 0 then
      (true, (updateTableStatus s1 r.tableId "available").2)
    else
      (true, s1)

/-- `getTablesWithReservations(date?)`: one view per table in listing
order; the target date is `date || today` (absent or empty falls back
to today); `todayReservations` filters that table's reservations by the
target date; `currentReservation` is the first active one. A pure read:
the state is returned unchanged. -/
def getTablesWithReservations (s : MemStorage) (date : Option String)
    (today : String) : List TableWithReservations × MemStorage :=
  let allTables := getTables s
  let targetDate := strOr date today
  let views := allTables.map (fun table =>
    let tableReservations := getReservationsByTable s table.id
    let todayReservations := tableReservations.filter (fun r => r.date == targetDate)
    let currentReservation := todayReservations.find? (fun r => r.status == "active")
    { table := table
      currentReservation := currentReservation
      todayReservations := todayReservations : TableWithReservations })
  (views, s)

/-- The 15 seeded tables of `initializeDefaultTables`. The seeding loop
applies the same `||` normalization as `createTable` to concrete,
non-falsy inputs, so the resulting records are written directly (ids
1–15, counter order). -/
def defaultTables : List Table :=
  [ { id := 1, number := 1, name := some "Основной", capacity := 2, x := 50, y := 80,
      width := 60, height := 60, status := "available", shape := "round", hallId := "white" },
    { id := 2, number := 2, name := some "У окна", capacity := 2, x := 150, y := 80,
      width := 60, height := 60, status := "reserved", shape := "round", hallId := "white" },
    { id := 3, number := 3, name := some "Семейный", capacity := 4, x := 250, y := 80,
      width := 80, height := 60, status := "occupied", shape := "rectangular", hallId := "white" },
    { id := 4, number := 4, name := some "Большой", capacity := 6, x := 50, y := 200,
      width := 100, height := 60, status := "available", shape := "rectangular", hallId := "white" },
    { id := 5, number := 5, name := some "Барная стойка", capacity := 2, x := 50, y := 80,
      width := 60, height := 60, status := "reserved", shape := "round", hallId := "bar" },
    { id := 6, number := 6, name := some "Высокий", capacity := 4, x := 150, y := 80,
      width := 80, height := 60, status := "available", shape := "rectangular", hallId := "bar" },
    { id := 7, number := 7, name := some "Коктейльный", capacity := 2, x := 250, y := 80,
      width := 60, height := 60, status := "occupied", shape := "round", hallId := "bar" },
    { id := 8, number := 8, name := some "Под аркой", capacity := 6, x := 100, y := 120,
      width := 100, height := 60, status := "available", shape := "rectangular", hallId := "vaulted" },
    { id := 9, number := 9, name := some "Центральный", capacity := 8, x := 250, y := 120,
      width := 120, height := 80, status := "reserved", shape := "rectangular", hallId := "vaulted" },
    { id := 10, number := 10, name := some "Уголок", capacity := 4, x := 50, y := 250,
      width := 80, height := 60, status := "available", shape := "rectangular", hallId := "vaulted" },
    { id := 11, number := 11, name := some "Тихий", capacity := 2, x := 80, y := 100,
      width := 60, height := 60, status := "available", shape := "round", hallId := "fourth" },
    { id := 12, number := 12, name := some "Деловой", capacity := 4, x := 180, y := 100,
      width := 80, height := 60, status := "reserved", shape := "rectangular", hallId := "fourth" },
    { id := 13, number := 13, name := some "Президиум", capacity := 10, x := 100, y := 150,
      width := 140, height := 100, status := "reserved", shape := "rectangular", hallId := "banquet" },
    { id := 14, number := 14, name := some "Главный", capacity := 12, x := 300, y := 150,
      width := 160, height := 100, status := "available", shape := "rectangular", hallId := "banquet" },
    { id := 15, number := 15, name := some "Праздничный", capacity := 8, x := 50, y := 300,
      width := 120, height := 80, status := "occupied", shape := "rectangular", hallId := "banquet" } ]

/-- The 3 seeded sample reservations, dated `today`; the seeding loop
coalesces the empty comments of the second and third to `null` and sets
`hasTimeLimit := false`, `startTime := endTime := null`. -/
def defaultReservations (today : String) (now : Nat) : List Reservation :=
  [ { id := 1, tableId := 2, customerName := "Иван Смирнов",
      customerPhone := "+7 (999) 123-45-67", guests := 4, date := today,
      time := "19:30", duration := 120,
      comment := some "Окно, пожалуйста. День рождения!", status := "active",
      hasTimeLimit := false, startTime := none, endTime := none, createdAt := now },
    { id := 2, tableId := 3, customerName := "Мария Козлова",
      customerPhone := "+7 (999) 765-43-21", guests := 2, date := today,
      time := "12:15", duration := 90, comment := none, status := "active",
      hasTimeLimit := false, startTime := none, endTime := none, createdAt := now },
    { id := 3, tableId := 5, customerName := "Анна Сидорова",
      customerPhone := "+7 (999) 456-78-90", guests := 4, date := today,
      time := "19:15", duration := 120, comment := none, status := "active",
      hasTimeLimit := false, startTime := none, endTime := none, createdAt := now } ]

/-- The state after the `MemStorage` constructor: seeded tables and
sample reservations, counters advanced past them. -/
def initState (today : String) (now : Nat) : MemStorage :=
  { tables := defaultTables
    reservations := defaultReservations today now
    currentTableId := 16
    currentReservationId := 4 }

/-- Well-formedness of the table store: every stored id is below the
counter, so the next assigned id is fresh. Holds for the seeded state
and is preserved by every operation. -/
def WFTables (s : MemStorage) : Bool :=
  s.tables.all (fun t => t.id < s.currentTableId)

/-! ### Map lemmas -/

theorem mapGet_key {key : α → Nat} {m : List α} {k : Nat} {v : α}
    (h : mapGet key m k = some v) : key v = k := by
  have := List.find?_some h
  simpa using this

theorem mapGet_mapSet_self {key : α → Nat} {m : List α} {k : Nat} {v : α}
    (hv : key v = k) : mapGet key (mapSet key m k v) k = some v := by
  induction m with
  | nil => simp [mapGet, mapSet, List.find?, hv]
  | cons x xs ih =>
    by_cases h : key x = k
    · simp [mapGet, mapSet, h, List.find?, hv]
    · simpa [mapGet, mapSet, h, List.find?] using ih

theorem mem_mapSet {key : α → Nat} {m : List α} {k : Nat} {v x : α}
    (h : x ∈ mapSet key m k v) : x = v ∨ x ∈ m := by
  induction m with
  | nil => simpa [mapSet] using h
  | cons y ys ih =>
    by_cases hy : key y = k
    · rcases List.mem_cons.mp (by simpa [mapSet, hy] using h) with h1 | h1
      · exact Or.inl h1
      · exact Or.inr (List.mem_cons_of_mem _ h1)
    · rcases List.mem_cons.mp (by simpa [mapSet, hy] using h) with h1 | h1
      · exact Or.inr (h1 ▸ List.mem_cons_self _ _)
      · rcases ih h1 with h2 | h2
        · exact Or.inl h2
        · exact Or.inr (List.mem_cons_of_mem _ h2)

theorem mapGet_mem {key : α → Nat} {m : List α} {k : Nat} {v : α}
    (h : mapGet key m k = some v) : v ∈ m :=
  List.mem_of_find?_eq_some h

/-! ### Well-formedness support -/

theorem WFTables_initState (today : String) (now : Nat) :
    WFTables (initState today now) = true := rfl

theorem WFTables_createTable {s : MemStorage} (t : InsertTable)
    (h : WFTables s = true) : WFTables (createTable s t).2 = true := by
  rw [WFTables, List.all_eq_true] at h ⊢
  intro x hx
  rcases mem_mapSet hx with h1 | h1
  · subst h1
    simp [createTable]
  · have := h x h1
    simp only [decide_eq_true_eq] at this ⊢
    exact Nat.lt_succ_of_lt this

theorem WFTables_updateTable {s : MemStorage} (id : Nat) (u : TableUpdates)
    (h : WFTables s = true) : WFTables (updateTable s id u).2 = true := by
  rw [WFTables, List.all_eq_true] at h
  unfold updateTable
  rcases hm : mapGet Table.id s.tables id with _ | t
  · simpa [WFTables, List.all_eq_true] using h
  · rw [WFTables, List.all_eq_true]
    intro x hx
    rcases mem_mapSet hx with h1 | h1
    · subst h1
      simpa [applyTableUpdates] using h t (mapGet_mem hm)
    · exact h x h1

theorem WFTables_updateTableStatus {s : MemStorage} (id : Nat) (st : String)
    (h : WFTables s = true) : WFTables (updateTableStatus s id st).2 = true :=
  WFTables_updateTable id (statusOnly st) h

theorem WFTables_createReservation {s : MemStorage} (r : InsertReservation)
    (now : Nat) (h : WFTables s = true) :
    WFTables (createReservation s r now).2 = true := by
  unfold createReservation
  exact WFTables_updateTableStatus r.tableId "reserved" h

theorem WFTables_updateReservation {s : MemStorage} (id : Nat)
    (u : ReservationUpdates) (h : WFTables s = true) :
    WFTables (updateReservation s id u).2 = true := by
  unfold updateReservation
  rcases mapGet Reservation.id s.reservations id with _ | r
  · exact h
  · exact h

theorem WFTables_deleteReservation {s : MemStorage} (id : Nat) (today : String)
    (h : WFTables s = true) : WFTables (deleteReservation s id today).2 = true := by
  unfold deleteReservation
  rcases mapGet Reservation.id s.reservations id with _ | r
  · exact h
  · dsimp only
    split
    · exact WFTables_updateTableStatus r.tableId "available" h
    · exact h

/-! ### Concrete states used by witnesses and counterexamples -/

/-- A bare table, id 1, status `available`. -/
def table1 : Table :=
  { id := 1, number := 1, name := none, capacity := 2, x := 0, y := 0
    width := 60, height := 60, status := "available", shape := "round"
    hallId := "white" }

/-- A store seeded with the single table `table1` and no reservations
(the scenario of spec §8). -/
def oneTableState : MemStorage :=
  { tables := [table1], reservations := [], currentTableId := 2
    currentReservationId := 1 }

/-- The reservation input of the spec §8 scenario:
`{tableId:1, date:"2024-01-01", time:"19:00", customerName:"A",
customerPhone:"1", guests:2}`. -/
def resvA : InsertReservation :=
  { tableId := 1, customerName := "A", customerPhone := "1", guests := 2
    date := "2024-01-01", time := "19:00", duration := none, comment := none
    status := none, hasTimeLimit := none, startTime := none, endTime := none }

/-- The state after creating `resvA` in `oneTableState`: table 1 is
`reserved`, reservation 1 is stored. -/
def seededState : MemStorage := (createReservation oneTableState resvA 0).2

/-- The stored form of `resvA` (id 1, defaults applied, created at 0). -/
def resvA1 : Reservation :=
  { id := 1, tableId := 1, customerName := "A", customerPhone := "1"
    guests := 2, date := "2024-01-01", time := "19:00", duration := 120
    comment := none, status := "active", hasTimeLimit := false
    startTime := none, endTime := none, createdAt := 0 }

/-- Table 1 as it stands in `seededState`. -/
def table1Reserved : Table := { table1 with status := "reserved" }

/-- Behaviour of `deleteReservation` on an existing reservation whose
table exists: reports success; if no remaining reservation of that
table is dated `today` with status `active`, only the table's status
changes, to `available`; otherwise the table store is untouched. -/
theorem deleteReservation_found (s : MemStorage) (rid : Nat)
    (today : String) (r : Reservation) (t : Table)
    (hr : getReservation s rid = some r)
    (ht : getTable s r.tableId = some t) :
    (deleteReservation s rid today).1 = true ∧
    ((getReservationsByTable
        { s with reservations := mapDelete Reservation.id s.reservations rid }
        r.tableId).filter (fun x => x.date == today && x.status == "active") = [] →
      getTable (deleteReservation s rid today).2 r.tableId =
        some { t with status := "available" }) ∧
    ((getReservationsByTable
        { s with reservations := mapDelete Reservation.id s.reservations rid }
        r.tableId).filter (fun x => x.date == today && x.status == "active") ≠ [] →
      (deleteReservation s rid today).2.tables = s.tables) := by
  have hid : t.id = r.tableId := mapGet_key ht
  rw [getReservation] at hr
  rw [getTable] at ht
  unfold deleteReservation
  rw [hr]
  dsimp only
  split
  case isTrue hlen =>
    refine ⟨rfl, fun _ => ?_, fun hne => absurd (List.length_eq_zero.mp hlen) hne⟩
    unfold updateTableStatus updateTable getTable
    dsimp only
    rw [ht]
    exact mapGet_mapSet_self hid
  case isFalse hlen =>
    refine ⟨rfl, fun heq => absurd (List.length_eq_zero.mpr heq) hlen, fun _ => rfl⟩

/-! ### Claim theorems -/

/-- C1: for every table existing in the store and every reservation
input referencing it, immediately after `createReservation` the table's
status is `reserved`, regardless of the reservation's date. -/
theorem createReservation_marks_table_reserved (s : MemStorage)
    (r : InsertReservation) (now : Nat) (t : Table)
    (ht : getTable s r.tableId = some t) :
    ∃ t', getTable (createReservation s r now).2 r.tableId = some t' ∧
      t'.status = "reserved" := by
  have hid : t.id = r.tableId := mapGet_key ht
  refine ⟨applyTableUpdates t (statusOnly "reserved"), ?_, rfl⟩
  rw [getTable] at ht
  unfold createReservation updateTableStatus updateTable getTable
  dsimp only
  rw [ht]
  exact mapGet_mapSet_self hid

theorem createReservation_marks_table_reserved_witness :
    ∃ t', getTable (createReservation oneTableState resvA 0).2 resvA.tableId
      = some t' ∧ t'.status = "reserved" :=
  createReservation_marks_table_reserved oneTableState resvA 0 table1 (by decide)

/-- C5: deleting a nonexistent reservation id returns `false` and
leaves the entire store state untouched. -/
theorem deleteReservation_not_found (s : MemStorage) (id : Nat)
    (today : String) (h : getReservation s id = none) :
    deleteReservation s id today = (false, s) := by
  rw [getReservation] at h
  unfold deleteReservation
  rw [h]

theorem deleteReservation_not_found_witness :
    deleteReservation oneTableState 5 "2024-06-15" = (false, oneTableState) :=
  deleteReservation_not_found oneTableState 5 "2024-06-15" (by decide)

/-- C9: `getTablesWithReservations` is a pure read projection — the
store state, every table record and every reservation record are
unchanged by the call. -/
theorem getTablesWithReservations_pure (s : MemStorage) (date : Option String)
    (today : String) :
    (getTablesWithReservations s date today).2 = s ∧
    (getTablesWithReservations s date today).2.tables = s.tables ∧
    (getTablesWithReservations s date today).2.reservations = s.reservations :=
  ⟨rfl, rfl, rfl⟩

/-- C10: `createReservation` with a `tableId` matching no table still
succeeds — the reservation is stored with the next id and normalized
defaults — and the table store is left entirely unchanged because the
status synchronization is a no-op on a missing table. -/
theorem createReservation_missing_table (s : MemStorage)
    (r : InsertReservation) (now : Nat)
    (h : getTable s r.tableId = none) :
    (createReservation s r now).2.tables = s.tables ∧
    (createReservation s r now).1.id = s.currentReservationId ∧
    (createReservation s r now).2.currentReservationId = s.currentReservationId + 1 ∧
    getReservation (createReservation s r now).2 s.currentReservationId =
      some (createReservation s r now).1 ∧
    (r.duration = none → (createReservation s r now).1.duration = 120) ∧
    (r.comment = none → (createReservation s r now).1.comment = none) ∧
    (r.status = none → (createReservation s r now).1.status = "active") ∧
    (r.hasTimeLimit = none → (createReservation s r now).1.hasTimeLimit = false) ∧
    (r.startTime = none → (createReservation s r now).1.startTime = none) ∧
    (r.endTime = none → (createReservation s r now).1.endTime = none) := by
  rw [getTable] at h
  unfold createReservation updateTableStatus updateTable getReservation
  dsimp only
  rw [h]
  dsimp only
  refine ⟨rfl, rfl, rfl, mapGet_mapSet_self rfl, ?_, ?_, ?_, ?_, ?_, ?_⟩
  all_goals intro hx
  all_goals simp [hx, intOr, strOrNull, strOr, boolOr]

theorem createReservation_missing_table_witness :
    (createReservation oneTableState { resvA with tableId := 7 } 0).2.tables
      = oneTableState.tables ∧
    (createReservation oneTableState { resvA with tableId := 7 } 0).1.id
      = oneTableState.currentReservationId ∧
    (createReservation oneTableState { resvA with tableId := 7 } 0).2.currentReservationId
      = oneTableState.currentReservationId + 1 ∧
    getReservation (createReservation oneTableState { resvA with tableId := 7 } 0).2
        oneTableState.currentReservationId
      = some (createReservation oneTableState { resvA with tableId := 7 } 0).1 ∧
    ({ resvA with tableId := 7 : InsertReservation }.duration = none →
      (createReservation oneTableState { resvA with tableId := 7 } 0).1.duration = 120) ∧
    ({ resvA with tableId := 7 : InsertReservation }.comment = none →
      (createReservation oneTableState { resvA with tableId := 7 } 0).1.comment = none) ∧
    ({ resvA with tableId := 7 : InsertReservation }.status = none →
      (createReservation oneTableState { resvA with tableId := 7 } 0).1.status = "active") ∧
    ({ resvA with tableId := 7 : InsertReservation }.hasTimeLimit = none →
      (createReservation oneTableState { resvA with tableId := 7 } 0).1.hasTimeLimit = false) ∧
    ({ resvA with tableId := 7 : InsertReservation }.startTime = none →
      (createReservation oneTableState { resvA with tableId := 7 } 0).1.startTime = none) ∧
    ({ resvA with tableId := 7 : InsertReservation }.endTime = none →
      (createReservation oneTableState { resvA with tableId := 7 } 0).1.endTime = none) :=
  createReservation_missing_table oneTableState { resvA with tableId := 7 } 0 (by decide)

/-- C2: after a successful `deleteReservation`, if no remaining
reservation of the deleted reservation's table is dated today with
status `active`, the table's record changes only in its status, which
becomes `available`; otherwise the table store is left entirely
unchanged. -/
theorem deleteReservation_reevaluates_table_status (s : MemStorage) (rid : Nat)
    (today : String) (r : Reservation) (t : Table)
    (hr : getReservation s rid = some r)
    (ht : getTable s r.tableId = some t) :
    (deleteReservation s rid today).1 = true ∧
    ((getReservationsByTable
        { s with reservations := mapDelete Reservation.id s.reservations rid }
        r.tableId).filter (fun x => x.date == today && x.status == "active") = [] →
      getTable (deleteReservation s rid today).2 r.tableId =
        some { t with status := "available" }) ∧
    ((getReservationsByTable
        { s with reservations := mapDelete Reservation.id s.reservations rid }
        r.tableId).filter (fun x => x.date == today && x.status == "active") ≠ [] →
      (deleteReservation s rid today).2.tables = s.tables) :=
  deleteReservation_found s rid today r t hr ht

theorem deleteReservation_reevaluates_table_status_witness :
    (deleteReservation seededState 1 "2024-01-01").1 = true ∧
    ((getReservationsByTable
        { seededState with
          reservations := mapDelete Reservation.id seededState.reservations 1 }
        resvA1.tableId).filter
        (fun x => x.date == "2024-01-01" && x.status == "active") = [] →
      getTable (deleteReservation seededState 1 "2024-01-01").2 resvA1.tableId =
        some { table1Reserved with status := "available" }) ∧
    ((getReservationsByTable
        { seededState with
          reservations := mapDelete Reservation.id seededState.reservations 1 }
        resvA1.tableId).filter
        (fun x => x.date == "2024-01-01" && x.status == "active") ≠ [] →
      (deleteReservation seededState 1 "2024-01-01").2.tables = seededState.tables) :=
  deleteReservation_reevaluates_table_status seededState 1 "2024-01-01" resvA1
    table1Reserved (by decide) (by decide)

/-- C3 counterexample: in the spec §8 scenario (one table, one
reservation dated `2024-01-01`, table `reserved`), deleting that
reservation on a different day (`2024-06-15`) sets the table's status
to `available` — it does not stay `reserved` as the claim states. -/
theorem deleteReservation_other_day_counterexample :
    (getReservation seededState 1).map Reservation.date = some "2024-01-01" ∧
    "2024-06-15" ≠ "2024-01-01" ∧
    (getTable seededState 1).map Table.status = some "reserved" ∧
    (getTable (deleteReservation seededState 1 "2024-06-15").2 1).map Table.status
      = some "available" := by decide

/-- C3 amended: deleting a reservation dated on a day other than today
applies the same re-evaluation as any deletion — the table is set to
`available` whenever no remaining active reservation dated *today*
exists for it (as in the scenario, where the table becomes
`available`), and its store is unchanged only when such a reservation
remains. -/
theorem deleteReservation_other_day (s : MemStorage) (rid : Nat)
    (today : String) (r : Reservation) (t : Table)
    (hr : getReservation s rid = some r)
    (hdate : r.date ≠ today)
    (ht : getTable s r.tableId = some t) :
    (deleteReservation s rid today).1 = true ∧
    ((getReservationsByTable
        { s with reservations := mapDelete Reservation.id s.reservations rid }
        r.tableId).filter (fun x => x.date == today && x.status == "active") = [] →
      getTable (deleteReservation s rid today).2 r.tableId =
        some { t with status := "available" }) ∧
    ((getReservationsByTable
        { s with reservations := mapDelete Reservation.id s.reservations rid }
        r.tableId).filter (fun x => x.date == today && x.status == "active") ≠ [] →
      (deleteReservation s rid today).2.tables = s.tables) :=
  deleteReservation_found s rid today r t hr ht

theorem deleteReservation_other_day_witness :
    (deleteReservation seededState 1 "2024-06-15").1 = true ∧
    ((getReservationsByTable
        { seededState with
          reservations := mapDelete Reservation.id seededState.reservations 1 }
        resvA1.tableId).filter
        (fun x => x.date == "2024-06-15" && x.status == "active") = [] →
      getTable (deleteReservation seededState 1 "2024-06-15").2 resvA1.tableId =
        some { table1Reserved with status := "available" }) ∧
    ((getReservationsByTable
        { seededState with
          reservations := mapDelete Reservation.id seededState.reservations 1 }
        resvA1.tableId).filter
        (fun x => x.date == "2024-06-15" && x.status == "active") ≠ [] →
      (deleteReservation seededState 1 "2024-06-15").2.tables = seededState.tables) :=
  deleteReservation_other_day seededState 1 "2024-06-15" resvA1 table1Reserved
    (by decide) (by decide) (by decide)

/-- The scenario input with `startTime`/`endTime` supplied but
`hasTimeLimit` left unset. -/
def resvTimed : InsertReservation :=
  { resvA with startTime := some "19:00", endTime := some "21:00" }

/-- C4 counterexample: `createReservation` with `hasTimeLimit` unset
but `startTime`/`endTime` supplied returns a record with
`hasTimeLimit = false` and the supplied times kept — not nulled as the
claim requires. -/
theorem createReservation_time_fields_counterexample :
    resvTimed.hasTimeLimit = none ∧
    (createReservation oneTableState resvTimed 0).1.hasTimeLimit = false ∧
    (createReservation oneTableState resvTimed 0).1.startTime = some "19:00" ∧
    (createReservation oneTableState resvTimed 0).1.endTime = some "21:00" := by
  decide

/-- C4 amended: `createReservation` nulls `startTime`/`endTime` exactly
when the supplied values are absent or empty (the store coalesces empty
strings to null but does not clear non-empty values based on
`hasTimeLimit`; the UI caller supplies nulls when the flag is off). -/
theorem createReservation_absent_time_fields (s : MemStorage)
    (r : InsertReservation) (now : Nat)
    (hs : r.startTime = none ∨ r.startTime = some "")
    (he : r.endTime = none ∨ r.endTime = some "") :
    (createReservation s r now).1.startTime = none ∧
    (createReservation s r now).1.endTime = none := by
  unfold createReservation
  dsimp only
  constructor
  · rcases hs with h | h <;> simp [strOrNull, h]
  · rcases he with h | h <;> simp [strOrNull, h]

theorem createReservation_absent_time_fields_witness :
    (createReservation oneTableState resvA 0).1.startTime = none ∧
    (createReservation oneTableState resvA 0).1.endTime = none :=
  createReservation_absent_time_fields oneTableState resvA 0 (by decide) (by decide)

/-- C7: `updateReservation` on an existing id returns the old record
with exactly the supplied fields replaced — unsupplied fields, `id` and
`createdAt` are unchanged — mutates no table record, and the updated
record is what `getReservation` subsequently returns. -/
theorem updateReservation_field_merge (s : MemStorage) (rid : Nat)
    (u : ReservationUpdates) (r : Reservation)
    (hr : getReservation s rid = some r) :
    ∃ r', (updateReservation s rid u).1 = some r' ∧
      r'.id = r.id ∧ r'.createdAt = r.createdAt ∧
      r'.tableId = u.tableId.getD r.tableId ∧
      r'.customerName = u.customerName.getD r.customerName ∧
      r'.customerPhone = u.customerPhone.getD r.customerPhone ∧
      r'.guests = u.guests.getD r.guests ∧
      r'.date = u.date.getD r.date ∧
      r'.time = u.time.getD r.time ∧
      r'.duration = u.duration.getD r.duration ∧
      r'.comment = u.comment.getD r.comment ∧
      r'.status = u.status.getD r.status ∧
      r'.hasTimeLimit = u.hasTimeLimit.getD r.hasTimeLimit ∧
      r'.startTime = u.startTime.getD r.startTime ∧
      r'.endTime = u.endTime.getD r.endTime ∧
      (updateReservation s rid u).2.tables = s.tables ∧
      getReservation (updateReservation s rid u).2 rid = some r' := by
  have hid : r.id = rid := mapGet_key hr
  rw [getReservation] at hr
  refine ⟨applyReservationUpdates r u, ?_⟩
  unfold updateReservation getReservation
  dsimp only
  rw [hr]
  dsimp only
  exact ⟨rfl, rfl, rfl, rfl, rfl, rfl, rfl, rfl, rfl, rfl, rfl, rfl, rfl, rfl,
    rfl, rfl, mapGet_mapSet_self hid⟩

/-- The update payload `{comment: "x"}` of the spec's round-trip
example. -/
def updC : ReservationUpdates :=
  { tableId := none, customerName := none, customerPhone := none
    guests := none, date := none, time := none, duration := none
    comment := some (some "x"), status := none, hasTimeLimit := none
    startTime := none, endTime := none }

theorem updateReservation_field_merge_witness :
    ∃ r', (updateReservation seededState 1 updC).1 = some r' ∧
      r'.id = resvA1.id ∧ r'.createdAt = resvA1.createdAt ∧
      r'.tableId = updC.tableId.getD resvA1.tableId ∧
      r'.customerName = updC.customerName.getD resvA1.customerName ∧
      r'.customerPhone = updC.customerPhone.getD resvA1.customerPhone ∧
      r'.guests = updC.guests.getD resvA1.guests ∧
      r'.date = updC.date.getD resvA1.date ∧
      r'.time = updC.time.getD resvA1.time ∧
      r'.duration = updC.duration.getD resvA1.duration ∧
      r'.comment = updC.comment.getD resvA1.comment ∧
      r'.status = updC.status.getD resvA1.status ∧
      r'.hasTimeLimit = updC.hasTimeLimit.getD resvA1.hasTimeLimit ∧
      r'.startTime = updC.startTime.getD resvA1.startTime ∧
      r'.endTime = updC.endTime.getD resvA1.endTime ∧
      (updateReservation seededState 1 updC).2.tables = seededState.tables ∧
      getReservation (updateReservation seededState 1 updC).2 1 = some r' :=
  updateReservation_field_merge seededState 1 updC resvA1 (by decide)

/-- A reservation of table 1 whose `date` field is the empty string. -/
def resvEmptyDate : Reservation := { resvA1 with date := "" }

/-- A store with the single table `table1` and the single reservation
`resvEmptyDate`. -/
def emptyDateState : MemStorage :=
  { tables := [table1], reservations := [resvEmptyDate], currentTableId := 2
    currentReservationId := 2 }

/-- C6 counterexample: with the supplied date `""`, the view's
`todayReservations` is empty even though a reservation of that table
with date equal to `""` exists — the supplied empty date is treated as
omitted (`date || today`), so the views are filtered by today's date
instead of the supplied one. -/
theorem getTablesWithReservations_empty_date_counterexample :
    emptyDateState.reservations.filter
      (fun r => r.tableId == table1.id && r.date == "") ≠ [] ∧
    (getTablesWithReservations emptyDateState (some "") "2024-06-15").1.map
      TableWithReservations.todayReservations = [[]] := by decide

/-- C6 amended: for every supplied date other than the empty string
(which falsy-coalescing treats as omitted), `getTablesWithReservations`
returns exactly one view per table in listing order; each view's
`todayReservations` holds exactly that table's reservations dated with
the target date (the supplied date, or today when omitted), and
`currentReservation` is the first of them with status `active`, absent
if none. -/
theorem getTablesWithReservations_views (s : MemStorage) (d : Option String)
    (today : String) (hd : d ≠ some "") :
    (getTablesWithReservations s d today).1.map TableWithReservations.table
      = getTables s ∧
    ∀ v ∈ (getTablesWithReservations s d today).1,
      v.todayReservations = s.reservations.filter
        (fun r => r.tableId == v.table.id && r.date == d.getD today) ∧
      v.currentReservation = v.todayReservations.find? (fun r => r.status == "active") := by
  have htarget : strOr d today = d.getD today := by
    cases d with
    | none => rfl
    | some x =>
      have hx : ¬x = "" := fun h => hd (by rw [h])
      simp [strOr, hx]
  constructor
  · simp [getTablesWithReservations, List.map_map, Function.comp_def, getTables]
  · intro v hv
    simp only [getTablesWithReservations, getTables, htarget] at hv
    obtain ⟨tb, _, rfl⟩ := List.mem_map.mp hv
    refine ⟨?_, rfl⟩
    simp [getReservationsByTable, List.filter_filter, Bool.and_comm]

theorem getTablesWithReservations_views_witness :
    (getTablesWithReservations seededState (some "2024-01-01") "2024-06-15").1.map
      TableWithReservations.table = getTables seededState ∧
    ∀ v ∈ (getTablesWithReservations seededState (some "2024-01-01") "2024-06-15").1,
      v.todayReservations = seededState.reservations.filter
        (fun r => r.tableId == v.table.id &&
          r.date == (some "2024-01-01").getD "2024-06-15") ∧
      v.currentReservation = v.todayReservations.find? (fun r => r.status == "active") :=
  getTablesWithReservations_views seededState (some "2024-01-01") "2024-06-15"
    (by decide)

/-- An insert payload for a table with every optional field unset. -/
def insertPlain : InsertTable :=
  { number := 2, name := none, capacity := 4, x := 10, y := 10, width := 50
    height := 50, status := none, shape := none, hallId := none }

/-- C8: on a well-formed store, every `createTable` call assigns an id
strictly greater than every stored table's id (namely the current
counter, which then advances — hence ids are monotonically increasing
and unique), stores the record, and normalizes each optional field that
is unset to its documented default: name `null`, status `available`,
shape `round`, hall `white`. -/
theorem createTable_fresh_id_and_defaults (s : MemStorage) (t : InsertTable)
    (hwf : WFTables s = true) :
    (∀ t0 ∈ getTables s, t0.id < (createTable s t).1.id) ∧
    (createTable s t).1.id = s.currentTableId ∧
    (createTable s t).2.currentTableId = s.currentTableId + 1 ∧
    getTable (createTable s t).2 (createTable s t).1.id = some (createTable s t).1 ∧
    (t.name = none → (createTable s t).1.name = none) ∧
    (t.status = none → (createTable s t).1.status = "available") ∧
    (t.shape = none → (createTable s t).1.shape = "round") ∧
    (t.hallId = none → (createTable s t).1.hallId = "white") := by
  rw [WFTables, List.all_eq_true] at hwf
  refine ⟨?_, rfl, rfl, mapGet_mapSet_self rfl, ?_, ?_, ?_, ?_⟩
  · intro t0 ht0
    simpa using hwf t0 ht0
  all_goals intro hx
  all_goals simp [createTable, strOrNull, strOr, hx]

theorem createTable_fresh_id_and_defaults_witness :
    (∀ t0 ∈ getTables oneTableState, t0.id < (createTable oneTableState insertPlain).1.id) ∧
    (createTable oneTableState insertPlain).1.id = oneTableState.currentTableId ∧
    (createTable oneTableState insertPlain).2.currentTableId
      = oneTableState.currentTableId + 1 ∧
    getTable (createTable oneTableState insertPlain).2
        (createTable oneTableState insertPlain).1.id
      = some (createTable oneTableState insertPlain).1 ∧
    (insertPlain.name = none → (createTable oneTableState insertPlain).1.name = none) ∧
    (insertPlain.status = none →
      (createTable oneTableState insertPlain).1.status = "available") ∧
    (insertPlain.shape = none →
      (createTable oneTableState insertPlain).1.shape = "round") ∧
    (insertPlain.hallId = none →
      (createTable oneTableState insertPlain).1.hallId = "white") :=
  createTable_fresh_id_and_defaults oneTableState insertPlain (by decide)

end CafeManager
